import Mathlib

/-!
# Verification of the epitaph shell overlay core

Shallow embedding of `src/main.rs` (touch gesture recognizer, drawer
animation driver, dispatch loop) and `src/module/brightness.rs`
(brightness slider module) from the `kchibisov/epitaph` repository.

`f64` scalars (offsets, positions, heights, brightness values) are
modelled as `ℚ`; all arithmetic performed by the code on them
(multiplication by the constant percentages, addition/subtraction of the
integral step, comparisons) is exact on the values of interest, so the
rational model is faithful.  The drawer window object (`drawer.rs`, not
part of the audited sources) is reduced to the scalar `max_offset` it
exposes plus the side effects `show`/`hide`/`request_frame` invoked on
it, which are recorded symbolically.
-/

namespace Epitaph

/-- Constant `ANIMATION_THRESHOLD: f64 = 0.25` from `main.rs`. -/
def ANIMATION_THRESHOLD : ℚ := 25 / 100

/-- Constant `ANIMATION_STEP: f64 = 20.` from `main.rs`. -/
def ANIMATION_STEP : ℚ := 20

/-- Constant `DRAWER_CLOSE_PERCENTAGE: f64 = 0.95` from `main.rs`. -/
def DRAWER_CLOSE_PERCENTAGE : ℚ := 95 / 100

/-- Constant `ANIMATION_INTERVAL = Duration::from_millis(1000 / 120)` from
`main.rs`: Rust integer division gives 8 milliseconds. -/
def ANIMATION_INTERVAL : ℕ := 1000 / 120

/-- The two logical windows of the shell; touch and layer events carry the
surface they happened on, routed by `owns_surface` in the handlers.  A
surface belonging to neither window is `other`. -/
inductive Surface where
  | panel
  | drawer
  | other
  deriving DecidableEq, Repr

/-- Outcome of `Drawer::show` (fallible, returns `Result<(), _>`). -/
inductive ShowResult where
  | ok
  | err
  deriving DecidableEq, Repr

/-- Environment of values provided by collaborators outside the audited
state machine: the drawer's `max_offset()` (its logical height) and the
outcome `Drawer::show` would produce when invoked. -/
structure Env where
  maxOffset : ℚ
  showResult : ShowResult
  deriving Repr

/-- The mutable fields of `State` in `main.rs` that the touch gesture
recognizer, the animation driver and the dispatch loop read and write,
plus `pendingAnim`: the number of animation timer sources currently
registered in the calloop event loop (a timer is inserted by
`TouchHandler::up` and removed only when its own callback returns
`TimeoutAction::Drop`). -/
structure State where
  active_touch : Option ℤ
  drawer_opening : Bool
  drawer_offset : ℚ
  terminated : Bool
  pendingAnim : ℕ
  deriving DecidableEq, Repr

/-- Handler `TouchHandler::down` from `main.rs`.  First branch: no active touch and
the panel owns the surface — show the drawer (result only logged), seed
the offset with the touch `y`, record the touch id, direction opening.
Second branch (note: NOT guarded by `active_touch.is_none()`): the drawer
owns the surface and `y >= max_offset * DRAWER_CLOSE_PERCENTAGE` — seed
offset, record id, direction closing.  Otherwise no-op. -/
def down (env : Env) (s : State) (surface : Surface) (id : ℤ) (pos : ℚ × ℚ) :
    State :=
  if s.active_touch = none ∧ surface = Surface.panel then
    { s with drawer_offset := pos.2, active_touch := some id,
             drawer_opening := true }
  else if surface = Surface.drawer ∧
      pos.2 ≥ env.maxOffset * DRAWER_CLOSE_PERCENTAGE then
    { s with drawer_offset := pos.2, active_touch := some id,
             drawer_opening := false }
  else
    s

/-- Whether `TouchHandler::down` prints its error message (`Drawer::show`
failed in the panel branch); the state mutation itself is unconditional. -/
def downErrorLogged (env : Env) (s : State) (surface : Surface) : Bool :=
  if s.active_touch = none ∧ surface = Surface.panel ∧
      env.showResult = ShowResult.err then
    true
  else
    false

/-- Handler `TouchHandler::up` from `main.rs`: if the lifted id is the tracked one,
clear the session and insert a fresh animation timer source into the
event loop (the returned registration token is discarded). -/
def up (s : State) (id : ℤ) : State :=
  if s.active_touch = some id then
    { s with active_touch := none, pendingAnim := s.pendingAnim + 1 }
  else
    s

/-- Handler `TouchHandler::motion` from `main.rs`: if the moving id is the
tracked one, track the finger (and request a drawer frame). -/
def motion (s : State) (id : ℤ) (pos : ℚ × ℚ) : State :=
  if s.active_touch = some id then
    { s with drawer_offset := pos.2 }
  else
    s

/-- Handler `TouchHandler::cancel` from `main.rs` has an empty body. -/
def cancel (s : State) : State :=
  s

/-- Threshold computed at the top of `animate_drawer`: opening uses
`max_offset * ANIMATION_THRESHOLD`, closing uses
`max_offset - max_offset * ANIMATION_THRESHOLD`. -/
def threshold (opening : Bool) (maxOffset : ℚ) : ℚ :=
  if opening then maxOffset * ANIMATION_THRESHOLD
  else maxOffset - maxOffset * ANIMATION_THRESHOLD

/-- The offset update of one `animate_drawer` tick: step towards the end
the offset already passed the threshold for. -/
def animate (opening : Bool) (maxOffset x : ℚ) : ℚ :=
  if x ≥ threshold opening maxOffset then x + ANIMATION_STEP
  else x - ANIMATION_STEP

/-- Side effect of one animation tick on the drawer window. -/
inductive AnimEffect where
  | hide
  | requestFrame
  deriving DecidableEq, Repr

/-- Return value of the `animate_drawer` timer callback: drop the timer or
reschedule it at an absolute instant (milliseconds). -/
inductive AnimAction where
  | drop
  | reschedule (instant : ℕ)
  deriving DecidableEq, Repr

/-- Full result of one `animate_drawer` tick. -/
structure AnimOut where
  offset : ℚ
  effect : AnimEffect
  action : AnimAction
  deriving DecidableEq, Repr

/-- One tick of `animate_drawer` from `main.rs`: update the offset by a
step towards the nearer end, then: `offset <= 0` hides the drawer and
drops the timer; `offset >= max_offset` requests a final frame and drops
the timer; otherwise request a frame and reschedule at
`now + ANIMATION_INTERVAL`. -/
def animateTick (opening : Bool) (maxOffset x : ℚ) (now : ℕ) : AnimOut :=
  let x' := animate opening maxOffset x
  if x' ≤ 0 then
    { offset := x', effect := AnimEffect.hide, action := AnimAction.drop }
  else if x' ≥ maxOffset then
    { offset := x', effect := AnimEffect.requestFrame,
      action := AnimAction.drop }
  else
    { offset := x', effect := AnimEffect.requestFrame,
      action := AnimAction.reschedule (now + ANIMATION_INTERVAL) }

/-- The drawer offset after at most `n` animation ticks starting from `x`:
each tick applies `animate`; once a tick ends in a terminal condition
(`offset <= 0` or `offset >= max_offset`) the timer is dropped and the
offset stays at that final value. -/
def animRun (opening : Bool) (maxOffset : ℚ) : ℕ → ℚ → ℚ
  | 0, x => x
  | n + 1, x =>
    let x' := animate opening maxOffset x
    if x' ≤ 0 ∨ maxOffset ≤ x' then x'
    else animRun opening maxOffset n x'

/-- How an animation run ends within `n` ticks: in the hide branch, in the
fully-open branch, or still running. -/
inductive AnimEnd where
  | hid
  | fullyOpen
  | running
  deriving DecidableEq, Repr

/-- The branch in which the animation starting at `x` terminates within
`n` ticks, following the branch order of `animate_drawer` (`offset <= 0`
is checked before `offset >= max_offset`). -/
def animRunEnd (opening : Bool) (maxOffset : ℚ) : ℕ → ℚ → AnimEnd
  | 0, _ => AnimEnd.running
  | n + 1, x =>
    let x' := animate opening maxOffset x
    if x' ≤ 0 then AnimEnd.hid
    else if x' ≥ maxOffset then AnimEnd.fullyOpen
    else animRunEnd opening maxOffset n x'

/-- Terminal condition of the animation on an offset value. -/
def animTerminal (maxOffset x : ℚ) : Prop :=
  x ≤ 0 ∨ maxOffset ≤ x

instance (maxOffset x : ℚ) : Decidable (animTerminal maxOffset x) := by
  unfold animTerminal; infer_instance

/-- One firing of a registered animation timer against the shared state:
the offset is updated by `animate`; a terminal tick drops its timer
source, a non-terminal tick stays registered (it reschedules itself).
When no timer is registered nothing fires. -/
def animTickState (env : Env) (s : State) : State :=
  if s.pendingAnim = 0 then s
  else
    let x' := animate s.drawer_opening env.maxOffset s.drawer_offset
    if x' ≤ 0 ∨ x' ≥ env.maxOffset then
      { s with drawer_offset := x', pendingAnim := s.pendingAnim - 1 }
    else
      { s with drawer_offset := x' }

/-- The events dispatched by the main loop of `main.rs` that can touch the
shared state: the Wayland protocol callbacks implemented on `State`, one
firing of the animation timer, and the forced `FRAME_INTERVAL` redraw.
Output events and `shape`/`orientation`/`new_seat`/`remove_seat` have
empty bodies in the source. -/
inductive Event where
  | scaleFactorChanged (surface : Surface) (factor : ℤ)
  | frame (surface : Surface)
  | newOutput
  | updateOutput
  | outputDestroyed
  | closed (surface : Surface)
  | configure (surface : Surface)
  | newCapability
  | removeCapability
  | touchDown (surface : Surface) (id : ℤ) (pos : ℚ × ℚ)
  | touchUp (id : ℤ)
  | touchMotion (id : ℤ) (pos : ℚ × ℚ)
  | touchCancel
  | touchShape
  | touchOrientation
  | animTimer
  | frameIntervalRefresh
  deriving Repr

/-- One dispatch step of the event loop against the shared state fields of
`State`.  `scale_factor_changed`, `frame`, `configure` and the frame
interval refresh only act on the panel/drawer window objects (draw,
request_frame, resize) and read but never write these fields;
`new_capability`/`remove_capability` only manage the `touch` handle.
`LayerHandler::closed` sets `terminated` ignoring which layer surface was
closed. -/
def dispatch (env : Env) (s : State) : Event → State
  | Event.scaleFactorChanged _ _ => s
  | Event.frame _ => s
  | Event.newOutput => s
  | Event.updateOutput => s
  | Event.outputDestroyed => s
  | Event.closed _ => { s with terminated := true }
  | Event.configure _ => s
  | Event.newCapability => s
  | Event.removeCapability => s
  | Event.touchDown surface id pos => down env s surface id pos
  | Event.touchUp id => up s id
  | Event.touchMotion id pos => motion s id pos
  | Event.touchCancel => cancel s
  | Event.touchShape => s
  | Event.touchOrientation => s
  | Event.animTimer => animTickState env s
  | Event.frameIntervalRefresh => s

/-- The dispatch loop of `main`: process events while `terminated` is
false; once `terminated` is set the loop exits and consumes nothing
further. -/
def dispatchLoop (env : Env) (s : State) : List Event → State
  | [] => s
  | e :: es =>
    if s.terminated then s
    else dispatchLoop env (dispatch env s e) es

end Epitaph

namespace Epitaph

/-- A udev backlight device as seen by `Slider::set_value` in
`brightness.rs`: the parsed `max_brightness` attribute (absent when the
attribute is missing or unparsable) and whether writing the `brightness`
attribute would succeed. -/
structure Device where
  maxBrightness : Option ℕ
  writeOk : Bool
  deriving DecidableEq, Repr

/-- Outcome of the udev enumeration steps (`Enumerator::new`,
`match_subsystem`, `scan_devices`): the device list, or a failure. -/
inductive EnumResult where
  | ok (devices : List Device)
  | err
  deriving DecidableEq, Repr

/-- The `Brightness` module state: its internal normalized value. -/
structure Brightness where
  brightness : ℚ
  deriving DecidableEq, Repr

/-- Expression `value.clamp(0., 1.)` from `Slider::set_value`. -/
def clamp01 (v : ℚ) : ℚ :=
  min (max v 0) 1

/-- The integer value written to one device's `brightness` attribute:
`((max_brightness as f64 * brightness) as u32).max(1)` (an `as u32` cast
truncates; operands here are nonnegative). -/
def writeTarget (maxBrightness : ℕ) (brightness : ℚ) : ℕ :=
  max (Int.toNat ⌊(maxBrightness : ℚ) * brightness⌋) 1

/-- The attribute writes `Slider::set_value` attempts, one per enumerated
device exposing a parsable `max_brightness`; devices without one are
skipped with `continue`. -/
def writeTargets (devices : List Device) (brightness : ℚ) : List ℕ :=
  devices.filterMap fun d => d.maxBrightness.map fun m => writeTarget m brightness

/-- Method `Slider::set_value` from `brightness.rs`: clamp the value to
`[0, 1]`; propagate an enumeration failure with `?` (modelled as `none`);
otherwise attempt one write per device with a parsable `max_brightness`,
each result discarded (`let _ = device.set_attribute_value(..)`), store
the clamped value and return `Ok` (modelled as `some`, paired with the
attempted writes). -/
def set_value (b : Brightness) (value : ℚ) (enum : EnumResult) :
    Option (Brightness × List ℕ) :=
  let brightness := clamp01 value
  match enum with
  | EnumResult.err => none
  | EnumResult.ok devices =>
      some ({ b with brightness := brightness }, writeTargets devices brightness)

/-- Method `Slider::get_value` from `brightness.rs`. -/
def get_value (b : Brightness) : ℚ :=
  b.brightness

end Epitaph

namespace Epitaph

/-! ## Shared lemmas about the animation driver -/

/-- Any rational is at most the step size times the (truncated) ceiling of
its quotient by the step size. -/
theorem le_step_mul_ceil (x : ℚ) : x ≤ 20 * ((⌈x / 20⌉).toNat : ℚ) := by
  rcases le_or_lt x 0 with hx | hx
  · have h0 : (0 : ℚ) ≤ 20 * ((⌈x / 20⌉).toNat : ℚ) := by positivity
    linarith
  · have hc : (0 : ℤ) ≤ ⌈x / 20⌉ := Int.ceil_nonneg (by positivity)
    have h1 : x / 20 ≤ ((⌈x / 20⌉ : ℤ) : ℚ) := Int.le_ceil _
    have h2 : (((⌈x / 20⌉).toNat : ℕ) : ℚ) = ((⌈x / 20⌉ : ℤ) : ℚ) := by
      exact_mod_cast Int.toNat_of_nonneg hc
    rw [h2]
    linarith

/-- An offset at or above the threshold steps upward. -/
theorem animate_of_threshold_le (opening : Bool) (m x : ℚ)
    (h : threshold opening m ≤ x) :
    animate opening m x = x + ANIMATION_STEP := by
  rw [animate, if_pos (show x ≥ threshold opening m from h)]

/-- An offset below the threshold steps downward. -/
theorem animate_of_lt_threshold (opening : Bool) (m x : ℚ)
    (h : x < threshold opening m) :
    animate opening m x = x - ANIMATION_STEP := by
  rw [animate, if_neg (not_le.mpr h)]

/-- Starting at or above the threshold, once enough steps fit between the
start and `m` the run is terminal. -/
theorem animRun_ascending (opening : Bool) (m : ℚ) (n : ℕ) :
    ∀ x : ℚ, threshold opening m ≤ x → 0 ≤ x → m ≤ x + 20 * n →
      animTerminal m (animRun opening m n x) := by
  induction n with
  | zero =>
    intro x _ _ hm
    unfold animTerminal
    simp only [animRun]
    right
    push_cast at hm
    linarith
  | succ n ih =>
    intro x ht hx hm
    have hstep := animate_of_threshold_le opening m x ht
    rw [ANIMATION_STEP] at hstep
    simp only [animRun]
    by_cases hterm : animate opening m x ≤ 0 ∨ m ≤ animate opening m x
    · rw [if_pos hterm]
      exact hterm
    · rw [if_neg hterm]
      push_neg at hterm
      refine ih (animate opening m x) ?_ ?_ ?_
      · rw [hstep]; linarith
      · linarith [hterm.1]
      · rw [hstep]; push_cast at hm ⊢; linarith

/-- Starting below the threshold, once enough steps fit between the start
and `0` the run is terminal. -/
theorem animRun_descending (opening : Bool) (m : ℚ) (n : ℕ) :
    ∀ x : ℚ, x < threshold opening m → x - 20 * n ≤ 0 →
      animTerminal m (animRun opening m n x) := by
  induction n with
  | zero =>
    intro x _ hm
    unfold animTerminal
    simp only [animRun]
    left
    push_cast at hm
    linarith
  | succ n ih =>
    intro x ht hm
    have hstep := animate_of_lt_threshold opening m x ht
    rw [ANIMATION_STEP] at hstep
    simp only [animRun]
    by_cases hterm : animate opening m x ≤ 0 ∨ m ≤ animate opening m x
    · rw [if_pos hterm]
      exact hterm
    · rw [if_neg hterm]
      push_neg at hterm
      refine ih (animate opening m x) ?_ ?_
      · rw [hstep]; linarith
      · rw [hstep]; push_cast at hm ⊢; linarith

/-- C4: for every starting offset in `[0, max_offset]` and either
direction, iterating the animation tick reaches a terminal condition
(`offset ≤ 0` or `offset ≥ max_offset`) within
`⌈max_offset / ANIMATION_STEP⌉` ticks. -/
theorem animation_bounded_termination (opening : Bool) (m x : ℚ)
    (hx0 : 0 ≤ x) (hxm : x ≤ m) :
    animTerminal m (animRun opening m (⌈m / ANIMATION_STEP⌉.toNat) x) := by
  have hm20 : m ≤ 20 * ((⌈m / ANIMATION_STEP⌉.toNat : ℕ) : ℚ) := by
    rw [ANIMATION_STEP]
    exact le_step_mul_ceil m
  rcases le_or_lt (threshold opening m) x with ht | ht
  · exact animRun_ascending opening m _ x ht hx0 (by linarith)
  · exact animRun_descending opening m _ x ht (by linarith)

/-- Witness for C4 at `max_offset = 100`, opening, start `95`. -/
theorem animation_bounded_termination_witness :
    animTerminal 100 (animRun true 100 (⌈(100 : ℚ) / ANIMATION_STEP⌉.toNat) 95) :=
  animation_bounded_termination true 100 95 (by norm_num) (by norm_num)

/-- C2 counterexample: starting from offset `25 ∈ [0, 30]` with
`max_offset = 30` and direction Opening, a single tick leaves
`drawer_offset = 45`, outside `[0, max_offset]` — the terminal tick does
not clamp. -/
theorem drawer_offset_overshoots_range :
    (0 : ℚ) ≤ 25 ∧ (25 : ℚ) ≤ 30 ∧ animRun true 30 1 25 = 45 ∧
      ¬(animRun true 30 1 25 ≤ 30) := by
  refine ⟨by norm_num, by norm_num, ?_, ?_⟩ <;>
    norm_num [animRun, animate, threshold, ANIMATION_THRESHOLD, ANIMATION_STEP]

/-- C2 (amended): for every starting offset in `[0, max_offset]` and
either direction, after any number of animation ticks the offset remains
within `[-ANIMATION_STEP, max_offset + ANIMATION_STEP]`; the terminal
tick may overshoot `[0, max_offset]` by up to one step because no
clamping is performed. -/
theorem drawer_offset_within_step_of_range (opening : Bool) (m : ℚ)
    (n : ℕ) :
    ∀ x : ℚ, 0 ≤ x → x ≤ m →
      -ANIMATION_STEP ≤ animRun opening m n x ∧
        animRun opening m n x ≤ m + ANIMATION_STEP := by
  induction n with
  | zero =>
    intro x hx hxm
    rw [ANIMATION_STEP]
    simp only [animRun]
    constructor <;> linarith
  | succ n ih =>
    intro x hx hxm
    have hbound : x - ANIMATION_STEP ≤ animate opening m x ∧
        animate opening m x ≤ x + ANIMATION_STEP := by
      rcases le_or_lt (threshold opening m) x with h | h
      · rw [animate_of_threshold_le opening m x h, ANIMATION_STEP]
        constructor <;> linarith
      · rw [animate_of_lt_threshold opening m x h, ANIMATION_STEP]
        constructor <;> linarith
    rw [ANIMATION_STEP] at hbound
    simp only [animRun]
    by_cases hterm : animate opening m x ≤ 0 ∨ m ≤ animate opening m x
    · rw [if_pos hterm, ANIMATION_STEP]
      constructor <;> linarith [hbound.1, hbound.2]
    · rw [if_neg hterm]
      push_neg at hterm
      exact ih (animate opening m x) (le_of_lt hterm.1) (le_of_lt hterm.2)

/-- Witness for the amended C2 at `max_offset = 30`, one tick from `25`:
the offset stays within `[-20, 50]`. -/
theorem drawer_offset_within_step_of_range_witness :
    -ANIMATION_STEP ≤ animRun true 30 1 25 ∧
      animRun true 30 1 25 ≤ 30 + ANIMATION_STEP :=
  drawer_offset_within_step_of_range true 30 1 25 (by norm_num) (by norm_num)

end Epitaph

namespace Epitaph

/-- An ascending run (start at or above the threshold, strictly positive)
never ends in the hide branch. -/
theorem animRunEnd_ascending_ne_hid (opening : Bool) (m : ℚ) (n : ℕ) :
    ∀ x : ℚ, threshold opening m ≤ x → 0 < x →
      animRunEnd opening m n x ≠ AnimEnd.hid := by
  induction n with
  | zero =>
    intro x _ _
    simp only [animRunEnd]
    exact fun h => AnimEnd.noConfusion h
  | succ n ih =>
    intro x ht hx
    have hstep := animate_of_threshold_le opening m x ht
    rw [ANIMATION_STEP] at hstep
    simp only [animRunEnd]
    rw [if_neg (show ¬animate opening m x ≤ 0 by rw [hstep]; push_neg; linarith)]
    by_cases hm : animate opening m x ≥ m
    · rw [if_pos hm]
      exact fun h => AnimEnd.noConfusion h
    · rw [if_neg hm]
      refine ih (animate opening m x) ?_ ?_
      · rw [hstep]; linarith
      · rw [hstep]; linarith

/-- An ascending run reaches the fully-open branch once enough steps fit
between the start and `m`. -/
theorem animRunEnd_ascending_open (opening : Bool) (m : ℚ) (n : ℕ) :
    ∀ x : ℚ, threshold opening m ≤ x → 0 < x → m ≤ x + 20 * n →
      animRunEnd opening m (n + 1) x = AnimEnd.fullyOpen := by
  induction n with
  | zero =>
    intro x ht hx hm
    have hstep := animate_of_threshold_le opening m x ht
    rw [ANIMATION_STEP] at hstep
    push_cast at hm
    simp only [animRunEnd]
    rw [if_neg (show ¬animate opening m x ≤ 0 by rw [hstep]; push_neg; linarith),
      if_pos (show animate opening m x ≥ m by rw [hstep]; linarith)]
  | succ n ih =>
    intro x ht hx hm
    have hstep := animate_of_threshold_le opening m x ht
    rw [ANIMATION_STEP] at hstep
    simp only [animRunEnd]
    rw [if_neg (show ¬animate opening m x ≤ 0 by rw [hstep]; push_neg; linarith)]
    by_cases hge : animate opening m x ≥ m
    · rw [if_pos hge]
    · rw [if_neg hge]
      push_neg at hge
      refine ih (animate opening m x) ?_ ?_ ?_
      · rw [hstep]; linarith
      · rw [hstep]; linarith
      · rw [hstep]; push_cast at hm ⊢; linarith

/-- A descending run (start below the threshold and below `m`) never ends
in the fully-open branch. -/
theorem animRunEnd_descending_ne_open (opening : Bool) (m : ℚ) (n : ℕ) :
    ∀ x : ℚ, x < threshold opening m → x < m →
      animRunEnd opening m n x ≠ AnimEnd.fullyOpen := by
  induction n with
  | zero =>
    intro x _ _
    simp only [animRunEnd]
    exact fun h => AnimEnd.noConfusion h
  | succ n ih =>
    intro x ht hxm
    have hstep := animate_of_lt_threshold opening m x ht
    rw [ANIMATION_STEP] at hstep
    simp only [animRunEnd]
    by_cases h0 : animate opening m x ≤ 0
    · rw [if_pos h0]
      exact fun h => AnimEnd.noConfusion h
    · rw [if_neg h0,
        if_neg (show ¬animate opening m x ≥ m by rw [hstep]; push_neg; linarith)]
      refine ih (animate opening m x) ?_ ?_
      · rw [hstep]; linarith
      · rw [hstep]; linarith

/-- Below the threshold and above one step, stepping down stays below
`m` (in both directions the threshold is a convex combination of `0` and
`m`). -/
theorem sub_step_lt_of_lt_threshold (opening : Bool) (m x : ℚ)
    (ht : x < threshold opening m) (hx : 20 < x) : x - 20 < m := by
  cases opening <;> simp [threshold, ANIMATION_THRESHOLD] at ht <;> linarith

/-- A descending run reaches the hide branch once enough steps fit between
the start and `0`. -/
theorem animRunEnd_descending_hid (opening : Bool) (m : ℚ) (n : ℕ) :
    ∀ x : ℚ, x < threshold opening m → x ≤ 20 * n →
      animRunEnd opening m (n + 1) x = AnimEnd.hid := by
  induction n with
  | zero =>
    intro x ht hx
    have hstep := animate_of_lt_threshold opening m x ht
    rw [ANIMATION_STEP] at hstep
    push_cast at hx
    simp only [animRunEnd]
    rw [if_pos (show animate opening m x ≤ 0 by rw [hstep]; linarith)]
  | succ n ih =>
    intro x ht hx
    have hstep := animate_of_lt_threshold opening m x ht
    rw [ANIMATION_STEP] at hstep
    simp only [animRunEnd]
    by_cases h0 : animate opening m x ≤ 0
    · rw [if_pos h0]
    · rw [if_neg h0]
      push_neg at h0
      rw [hstep] at h0
      rw [if_neg (show ¬animate opening m x ≥ m by
        push_neg
        rw [hstep]
        exact sub_step_lt_of_lt_threshold opening m x ht (by linarith))]
      refine ih (animate opening m x) ?_ ?_
      · rw [hstep]; linarith
      · rw [hstep]; push_cast at hx ⊢; linarith

end Epitaph

namespace Epitaph

/-- C5: with a positive `max_offset`, an Opening animation started at
`offset ≥ 0.75 * max_offset` terminates in the fully-open branch and
never in the hide branch; symmetrically a Closing animation started at
`offset ≤ 0.25 * max_offset` terminates in the hide branch and never
fully open. -/
theorem animation_snap_correct (m x : ℚ) (hm : 0 < m) :
    (m * (75 / 100) ≤ x →
      (∃ n, animRunEnd true m n x = AnimEnd.fullyOpen) ∧
        ∀ n, animRunEnd true m n x ≠ AnimEnd.hid) ∧
    (x ≤ m * (25 / 100) →
      (∃ n, animRunEnd false m n x = AnimEnd.hid) ∧
        ∀ n, animRunEnd false m n x ≠ AnimEnd.fullyOpen) := by
  constructor
  · intro hx
    have hthr : threshold true m = m * (25 / 100) := by
      simp [threshold, ANIMATION_THRESHOLD]
    have ht : threshold true m ≤ x := by rw [hthr]; linarith
    have hx0 : 0 < x := by linarith
    refine ⟨⟨⌈m / 20⌉.toNat + 1, ?_⟩, fun n => animRunEnd_ascending_ne_hid true m n x ht hx0⟩
    refine animRunEnd_ascending_open true m _ x ht hx0 ?_
    have := le_step_mul_ceil m
    linarith
  · intro hx
    have hthr : threshold false m = m - m * (25 / 100) := by
      simp [threshold, ANIMATION_THRESHOLD]
    have ht : x < threshold false m := by rw [hthr]; linarith
    have hxm : x < m := by linarith
    refine ⟨⟨⌈x / 20⌉.toNat + 1, ?_⟩, fun n => animRunEnd_descending_ne_open false m n x ht hxm⟩
    exact animRunEnd_descending_hid false m _ x ht (le_step_mul_ceil x)

/-- Witness for C5 at `max_offset = 100`, Opening from `80 ≥ 75`. -/
theorem animation_snap_correct_witness :
    (∃ n, animRunEnd true 100 n 80 = AnimEnd.fullyOpen) ∧
      ∀ n, animRunEnd true 100 n 80 ≠ AnimEnd.hid :=
  (animation_snap_correct 100 80 (by norm_num)).1 (by norm_num)

/-- The offset field of a tick result is always the stepped offset. -/
theorem animateTick_offset (opening : Bool) (m x : ℚ) (now : ℕ) :
    (animateTick opening m x now).offset = animate opening m x := by
  simp only [animateTick]
  split_ifs <;> rfl

/-- C3: each tick computes the threshold as `max_offset * 0.25` when
Opening and `max_offset - max_offset * 0.25` when Closing, adds `20` to
the offset when it is at or above the threshold and subtracts `20`
otherwise; then a resulting offset `≤ 0` hides the drawer and drops the
timer, a resulting offset `≥ max_offset` requests one final frame and
drops the timer, and otherwise a frame is requested and the tick is
rescheduled at `now + ANIMATION_INTERVAL`. -/
theorem animation_tick_spec (opening : Bool) (m x : ℚ) (now : ℕ) :
    ((animateTick opening m x now).offset =
      if x ≥ (if opening then m * (25 / 100) else m - m * (25 / 100))
        then x + 20 else x - 20) ∧
    ((animateTick opening m x now).offset ≤ 0 →
      (animateTick opening m x now).effect = AnimEffect.hide ∧
        (animateTick opening m x now).action = AnimAction.drop) ∧
    (¬(animateTick opening m x now).offset ≤ 0 →
      m ≤ (animateTick opening m x now).offset →
        (animateTick opening m x now).effect = AnimEffect.requestFrame ∧
          (animateTick opening m x now).action = AnimAction.drop) ∧
    (¬(animateTick opening m x now).offset ≤ 0 →
      ¬m ≤ (animateTick opening m x now).offset →
        (animateTick opening m x now).effect = AnimEffect.requestFrame ∧
          (animateTick opening m x now).action =
            AnimAction.reschedule (now + ANIMATION_INTERVAL)) := by
  have hoff := animateTick_offset opening m x now
  refine ⟨?_, ?_, ?_, ?_⟩
  · rw [hoff]
    simp only [animate, threshold, ANIMATION_THRESHOLD, ANIMATION_STEP]
  · intro h0
    rw [hoff] at h0
    constructor <;> · simp only [animateTick]; rw [if_pos h0]
  · intro h0 hm
    rw [hoff] at h0 hm
    constructor <;>
      · simp only [animateTick]
        rw [if_neg h0, if_pos (show animate opening m x ≥ m from hm)]
  · intro h0 hm
    rw [hoff] at h0 hm
    constructor <;>
      · simp only [animateTick]
        rw [if_neg h0, if_neg (show ¬animate opening m x ≥ m from hm)]

/-- Witness for C3 at Opening, `max_offset = 100`, offset `50`, `now = 0`:
the tick steps to `70`, requests a frame and reschedules. -/
theorem animation_tick_spec_witness :
    (animateTick true 100 50 0).effect = AnimEffect.requestFrame ∧
      (animateTick true 100 50 0).action =
        AnimAction.reschedule (0 + ANIMATION_INTERVAL) :=
  (animation_tick_spec true 100 50 0).2.2.2
    (by norm_num [animateTick, animate, threshold, ANIMATION_THRESHOLD,
      ANIMATION_STEP])
    (by norm_num [animateTick, animate, threshold, ANIMATION_THRESHOLD,
      ANIMATION_STEP])

end Epitaph

namespace Epitaph

/-- C1 counterexample: with a touch session already active
(`active_touch = some 1`, opening, offset `5`), a touch-down of id `2` on
the Drawer at `y = 100 ≥ 0.95 * 100` is NOT ignored: it overwrites all
three session fields (the second branch of `TouchHandler::down` is not
guarded by `active_touch.is_none()`). -/
theorem touch_down_hijacks_active_session :
    (down ⟨100, ShowResult.ok⟩ ⟨some 1, true, 5, false, 0⟩
        Surface.drawer 2 (0, 100)).active_touch ≠ some 1 ∧
    (down ⟨100, ShowResult.ok⟩ ⟨some 1, true, 5, false, 0⟩
        Surface.drawer 2 (0, 100)).drawer_opening ≠ true ∧
    (down ⟨100, ShowResult.ok⟩ ⟨some 1, true, 5, false, 0⟩
        Surface.drawer 2 (0, 100)).drawer_offset ≠ 5 := by
  have e : down ⟨100, ShowResult.ok⟩ ⟨some 1, true, 5, false, 0⟩
      Surface.drawer 2 (0, 100) = ⟨some 2, false, 100, false, 0⟩ := by
    rw [down, if_neg (fun hc => Option.noConfusion hc.1),
      if_pos ⟨rfl, by norm_num [DRAWER_CLOSE_PERCENTAGE]⟩]
  rw [e]
  refine ⟨by simp, by simp, by norm_num⟩

/-- C1 (amended): while a session is active, a touch-down is ignored when
it lands on the Panel, on a foreign surface, or on the Drawer below the
close-handle region; but a touch-down on the Drawer at
`y ≥ max_offset * 0.95` replaces the active session: it sets
`active_touch` to the new id, `drawer_opening` to `false` and
`drawer_offset` to the touch `y`. -/
theorem touch_down_active_session_cases (env : Env) (s : State) (id : ℤ)
    (pos : ℚ × ℚ) (h : s.active_touch ≠ none) :
    down env s Surface.panel id pos = s ∧
    down env s Surface.other id pos = s ∧
    (pos.2 < env.maxOffset * DRAWER_CLOSE_PERCENTAGE →
      down env s Surface.drawer id pos = s) ∧
    (env.maxOffset * DRAWER_CLOSE_PERCENTAGE ≤ pos.2 →
      down env s Surface.drawer id pos =
        { s with drawer_offset := pos.2, active_touch := some id,
                 drawer_opening := false }) := by
  refine ⟨?_, ?_, ?_, ?_⟩
  · rw [down, if_neg (fun hc => h hc.1),
      if_neg (fun hc => Surface.noConfusion hc.1)]
  · rw [down, if_neg (fun hc => h hc.1),
      if_neg (fun hc => Surface.noConfusion hc.1)]
  · intro hlt
    rw [down, if_neg (fun hc => h hc.1),
      if_neg (fun hc => absurd hc.2 (not_le.mpr hlt))]
  · intro hge
    rw [down, if_neg (fun hc => h hc.1), if_pos ⟨rfl, hge⟩]

/-- Witness for the amended C1: a panel touch-down with a live session is
a no-op. -/
theorem touch_down_active_session_cases_witness :
    down ⟨100, ShowResult.ok⟩ ⟨some 1, true, 5, false, 0⟩
        Surface.panel 2 (0, 50) =
      ⟨some 1, true, 5, false, 0⟩ :=
  (touch_down_active_session_cases ⟨100, ShowResult.ok⟩
    ⟨some 1, true, 5, false, 0⟩ 2 (0, 50) (by simp)).1

/-- C6 counterexample: with one animation timer pending and no active
session, a qualifying panel touch-down creates a session but leaves the
timer registered, and the next timer firing still mutates
`drawer_offset` while the session is active. -/
theorem touch_down_does_not_cancel_pending_tick :
    (dispatch ⟨100, ShowResult.ok⟩ ⟨none, false, 60, false, 1⟩
        (Event.touchDown Surface.panel 7 (0, 10))).active_touch = some 7 ∧
    (dispatch ⟨100, ShowResult.ok⟩ ⟨none, false, 60, false, 1⟩
        (Event.touchDown Surface.panel 7 (0, 10))).pendingAnim = 1 ∧
    (dispatch ⟨100, ShowResult.ok⟩
        (dispatch ⟨100, ShowResult.ok⟩ ⟨none, false, 60, false, 1⟩
          (Event.touchDown Surface.panel 7 (0, 10)))
        Event.animTimer).drawer_offset ≠
      (dispatch ⟨100, ShowResult.ok⟩ ⟨none, false, 60, false, 1⟩
        (Event.touchDown Surface.panel 7 (0, 10))).drawer_offset := by
  norm_num [dispatch, down, animTickState, animate, threshold,
    ANIMATION_THRESHOLD, ANIMATION_STEP, DRAWER_CLOSE_PERCENTAGE]

/-- C6 (amended): a touch-down never changes the set of registered
animation timers — starting a new touch session leaves any pending
animation tick scheduled, so ticks can fire during the new session. -/
theorem touch_down_preserves_pending_anim (env : Env) (s : State)
    (surface : Surface) (id : ℤ) (pos : ℚ × ℚ) :
    (dispatch env s (Event.touchDown surface id pos)).pendingAnim =
      s.pendingAnim := by
  simp only [dispatch, down]
  split_ifs <;> rfl

/-- C7 counterexample: a `closed` event for the Drawer's layer surface —
not the Panel's — sets the `terminated` flag (the handler ignores which
layer surface was closed). -/
theorem closed_drawer_sets_terminated :
    ((⟨none, false, 0, false, 0⟩ : State)).terminated = false ∧
    (dispatch ⟨100, ShowResult.ok⟩ ⟨none, false, 0, false, 0⟩
        (Event.closed Surface.drawer)).terminated = true :=
  ⟨rfl, rfl⟩

/-- C7 (amended): a `closed` event for ANY layer surface sets
`terminated`; no other event changes the flag; and once the flag is set
the dispatch loop consumes no further events. -/
theorem closed_any_layer_terminates (env : Env) (s : State) :
    (∀ surface, (dispatch env s (Event.closed surface)).terminated = true) ∧
    (∀ e : Event, (∀ surface, e ≠ Event.closed surface) →
      (dispatch env s e).terminated = s.terminated) ∧
    (∀ events, s.terminated = true → dispatchLoop env s events = s) := by
  refine ⟨fun _ => rfl, ?_, ?_⟩
  · intro e he
    cases e with
    | closed surface => exact absurd rfl (he surface)
    | touchDown surface id pos =>
        simp only [dispatch, down]; split_ifs <;> rfl
    | touchUp id => simp only [dispatch, up]; split_ifs <;> rfl
    | touchMotion id pos => simp only [dispatch, motion]; split_ifs <;> rfl
    | animTimer => simp only [dispatch, animTickState]; split_ifs <;> rfl
    | _ => rfl
  · intro events ht
    cases events with
    | nil => rfl
    | cons e es => simp only [dispatchLoop, ht]; rfl

/-- Witness for the amended C7: a panel frame event leaves the flag
untouched. -/
theorem closed_any_layer_terminates_witness :
    (dispatch ⟨100, ShowResult.ok⟩ ⟨none, false, 0, false, 0⟩
        (Event.frame Surface.panel)).terminated =
      (⟨none, false, 0, false, 0⟩ : State).terminated :=
  (closed_any_layer_terminates ⟨100, ShowResult.ok⟩
      ⟨none, false, 0, false, 0⟩).2.1
    (Event.frame Surface.panel) (fun _ h => Event.noConfusion h)

/-- C8: a `cancel` event from the touch protocol is a complete no-op: the
session, direction, offset, termination flag and pending animation timers
are all unchanged, and no animation hand-off is started. -/
theorem cancel_event_is_noop (env : Env) (s : State) :
    dispatch env s Event.touchCancel = s :=
  rfl

end Epitaph

namespace Epitaph

/-- C9: whenever device enumeration succeeds, `set_value` returns `Ok`
with the internal brightness set to the input clamped to `[0, 1]`, for
every device list — in particular regardless of each device's write
success flag, which `set_value` never reads — and `get_value` then
returns that clamped value. -/
theorem set_value_clamps_regardless_of_writes (b : Brightness) (value : ℚ)
    (devices : List Device) :
    set_value b value (EnumResult.ok devices) =
      some ({ brightness := min (max value 0) 1 },
        writeTargets devices (min (max value 0) 1)) ∧
    ∀ p, set_value b value (EnumResult.ok devices) = some p →
      get_value p.1 = min (max value 0) 1 := by
  refine ⟨rfl, ?_⟩
  intro p hp
  have : p = ({ brightness := min (max value 0) 1 },
      writeTargets devices (min (max value 0) 1)) := by
    have := hp.symm.trans (rfl :
      set_value b value (EnumResult.ok devices) =
        some ({ brightness := min (max value 0) 1 },
          writeTargets devices (min (max value 0) 1)))
    exact Option.some.inj this
  rw [this]
  rfl

/-- Witness for C9: `value = 3` with two devices, one of which would fail
its write: the result is `Ok`, the stored value is `1`. -/
theorem set_value_clamps_regardless_of_writes_witness :
    ∀ p, set_value ⟨1 / 2⟩ 3
        (EnumResult.ok [⟨some 255, false⟩, ⟨none, true⟩]) = some p →
      get_value p.1 = min (max 3 0) 1 :=
  (set_value_clamps_regardless_of_writes ⟨1 / 2⟩ 3
    [⟨some 255, false⟩, ⟨none, true⟩]).2

/-- C10: with no active session, a touch-down on the Panel creates the
session unconditionally — `active_touch := some id`,
`drawer_opening := true`, `drawer_offset := touch y` — for EITHER outcome
of `Drawer::show`; a failure is only logged (flag true exactly on the
error outcome) and no state is rolled back. -/
theorem panel_touch_down_unconditional_session (maxOffset : ℚ) (s : State)
    (id : ℤ) (pos : ℚ × ℚ) (h : s.active_touch = none) :
    ∀ r : ShowResult,
      down ⟨maxOffset, r⟩ s Surface.panel id pos =
        { s with drawer_offset := pos.2, active_touch := some id,
                 drawer_opening := true } ∧
      downErrorLogged ⟨maxOffset, ShowResult.err⟩ s Surface.panel = true ∧
      downErrorLogged ⟨maxOffset, ShowResult.ok⟩ s Surface.panel = false := by
  intro r
  refine ⟨?_, ?_, ?_⟩
  · rw [down, if_pos ⟨h, rfl⟩]
  · rw [downErrorLogged, if_pos ⟨h, rfl, rfl⟩]
  · rw [downErrorLogged, if_neg (fun hc => ShowResult.noConfusion hc.2.2)]

/-- Witness for C10: `Drawer::show` fails, yet the session is created. -/
theorem panel_touch_down_unconditional_session_witness :
    down ⟨100, ShowResult.err⟩ ⟨none, false, 0, false, 0⟩
        Surface.panel 3 (5, 42) =
      ⟨some 3, true, 42, false, 0⟩ :=
  (panel_touch_down_unconditional_session 100 ⟨none, false, 0, false, 0⟩
    3 (5, 42) rfl ShowResult.err).1

end Epitaph
